import Mathlib

/-!
Verification of the coffee-shop order pipeline
(`src/coffee_shop/workflows.py`) against its specification.

Money amounts are modelled as rationals (the Python source uses decimal
literals such as 3.50 whose arithmetic on the values reached here is exact),
loyalty points as integers, and a raised `KeyError` as the `Except.error`
branch of `Except String`.
-/

namespace CoffeeShop

/-- `CoffeeOrder` pydantic model: an order placed by a customer. -/
structure CoffeeOrder where
  order_id : String
  customer_id : String
  drink_type : String
  size : String
  extras : List String
deriving Repr, DecidableEq

/-- `OrderPrice` pydantic model: price information for an order. -/
structure OrderPrice where
  order_id : String
  base_price : ℚ
  extras_cost : ℚ
  loyalty_discount : ℚ
  final_total : ℚ
deriving Repr, DecidableEq

/-- `InventoryUpdate` pydantic model: inventory consumption for an order. -/
structure InventoryUpdate where
  items_used : List (String × Int)
  restock_needed : List String
deriving Repr, DecidableEq

/-- `LoyaltyPoints` pydantic model: loyalty information for a customer. -/
structure LoyaltyPoints where
  customer_id : String
  points_earned : ℤ
  total_points : ℤ
  current_tier : String
deriving Repr, DecidableEq

/-- `OrderSummary` pydantic model: the combined result of `process_order`. -/
structure OrderSummary where
  order_id : String
  price_info : OrderPrice
  loyalty_info : LoyaltyPoints
  inventory_status : String
  status : String
  estimated_wait : Nat
deriving Repr, DecidableEq

/-- The dict `base_prices = {"small": 3.50, "medium": 4.00, "large": 4.50}`;
subscript lookup `base_prices[size]` raises on a missing key, hence `Option`. -/
def base_prices (size : String) : Option ℚ :=
  if size = "small" then some (7/2)
  else if size = "medium" then some 4
  else if size = "large" then some (9/2)
  else none

/-- The dict `drink_markups = {"latte": 1.00, "cappuccino": 1.00, "espresso": 0.50}`
accessed with `.get(drink_type, 0)`, so unknown keys yield 0. -/
def drink_markups (drink_type : String) : ℚ :=
  if drink_type = "latte" then 1
  else if drink_type = "cappuccino" then 1
  else if drink_type = "espresso" then 1/2
  else 0

/-- The dict `extra_prices = {"extra_shot": 0.80, "whipped_cream": 0.50, "syrup": 0.50}`
accessed with `.get(extra, 0)`, so unknown keys yield 0. -/
def extra_prices (extra : String) : ℚ :=
  if extra = "extra_shot" then 4/5
  else if extra = "whipped_cream" then 1/2
  else if extra = "syrup" then 1/2
  else 0

/-- The dict `discount_rates = {"bronze": 0.0, "silver": 0.05, "gold": 0.10}`
accessed with `.get(loyalty_tier, 0)`, so unknown keys yield 0. -/
def discount_rates (loyalty_tier : String) : ℚ :=
  if loyalty_tier = "bronze" then 0
  else if loyalty_tier = "silver" then 1/20
  else if loyalty_tier = "gold" then 1/10
  else 0

/-- Task `calculate_order_price`: price of an order given the loyalty tier.
A missing size key raises (`Except.error`); every other lookup defaults. -/
def calculate_order_price (order : CoffeeOrder) (loyalty_tier : String) :
    Except String OrderPrice :=
  match base_prices order.size with
  | none => .error ("KeyError: " ++ order.size)
  | some bp =>
    let base_price : ℚ := bp + drink_markups order.drink_type
    let extras_cost : ℚ := (order.extras.map extra_prices).sum
    let loyalty_discount : ℚ := (base_price + extras_cost) * discount_rates loyalty_tier
    .ok { order_id := order.order_id
          base_price := base_price
          extras_cost := extras_cost
          loyalty_discount := loyalty_discount
          final_total := base_price + extras_cost - loyalty_discount }

/-- Task `check_inventory`: simulated inventory consumption for an order. -/
def check_inventory (order : CoffeeOrder) : InventoryUpdate :=
  let items_used : List (String × Int) :=
    [("coffee_beans", 20),
     ("milk", if order.drink_type ∈ ["latte", "cappuccino"] then 200 else 0)]
  let items_used :=
    if "extra_shot" ∈ order.extras then items_used ++ [("coffee_beans", 10)]
    else items_used
  let restock_needed := if order.drink_type = "espresso" then ["coffee_beans"] else []
  { items_used := items_used, restock_needed := restock_needed }

/-- Python `int(...)` applied to a float truncates toward zero. -/
def truncToInt (q : ℚ) : ℤ :=
  if 0 ≤ q then ⌊q⌋ else ⌈q⌉

/-- The tier ladder inside `calculate_loyalty_points`:
`gold` above 500 total points, `silver` above 200, else `bronze`. -/
def tierOfTotal (total_points : ℤ) : String :=
  if total_points > 500 then "gold"
  else if total_points > 200 then "silver"
  else "bronze"

/-- The hardcoded baseline `mock_current_points = 100`. -/
def mock_current_points : ℤ := 100

/-- Task `calculate_loyalty_points`: points earned, cumulative total and tier. -/
def calculate_loyalty_points (order_price : ℚ) (customer_id : String) : LoyaltyPoints :=
  let points_earned := truncToInt order_price
  let total_points := mock_current_points + points_earned
  { customer_id := customer_id
    points_earned := points_earned
    total_points := total_points
    current_tier := tierOfTotal total_points }

/-- Workflow `process_pricing`: probe the pre-order tier with spend 0, price the
order with that tier, then recompute loyalty from the final total. -/
def process_pricing (order : CoffeeOrder) :
    Except String (OrderPrice × LoyaltyPoints) := do
  let initial_loyalty := calculate_loyalty_points 0 order.customer_id
  let price_info ← calculate_order_price order initial_loyalty.current_tier
  let final_loyalty := calculate_loyalty_points price_info.final_total order.customer_id
  return (price_info, final_loyalty)

/-- Workflow `process_inventory`: runs `check_inventory` (the low-stock warning
is only a log line and has no effect on the returned value). -/
def process_inventory (order : CoffeeOrder) : InventoryUpdate :=
  check_inventory order

/-- Workflow `process_order`: the orchestrator. The Python `try`/`except` block
logs and re-raises, so a stage failure propagates unchanged (`Except` bind). -/
def process_order (order : CoffeeOrder) : Except String OrderSummary := do
  let (price_info, loyalty_info) ← process_pricing order
  let inventory_update := process_inventory order
  let inventory_status :=
    if inventory_update.restock_needed = [] then "READY_TO_PREPARE"
    else "WARNING_LOW_STOCK"
  let base_wait : Nat := 5
  let extra_wait : Nat := order.extras.length * 1
  return { order_id := order.order_id
           price_info := price_info
           loyalty_info := loyalty_info
           inventory_status := inventory_status
           status := "ACCEPTED"
           estimated_wait := base_wait + extra_wait }

/-- The sample order built in `main()`. -/
def sampleOrder : CoffeeOrder :=
  { order_id := "CO123"
    customer_id := "CUST456"
    drink_type := "latte"
    size := "medium"
    extras := ["extra_shot", "whipped_cream"] }

/-- An order with an unrecognized size (and unrecognized drink and extra). -/
def badOrder : CoffeeOrder :=
  { order_id := "CO999", customer_id := "CUST999", drink_type := "mocha",
    size := "venti", extras := ["caramel"] }

/-- A latte order without the extra_shot add-on. -/
def latteNoShot : CoffeeOrder :=
  { order_id := "CO200", customer_id := "CUST200", drink_type := "latte",
    size := "small", extras := ["syrup"] }

/-- Ranking of the loyalty tiers, bronze < silver < gold. -/
def tier_rank (tier : String) : Nat :=
  if tier = "gold" then 2 else if tier = "silver" then 1 else 0

/-- The price breakdown produced for `sampleOrder`. -/
def samplePrice : OrderPrice :=
  { order_id := "CO123", base_price := 5, extras_cost := 13/10,
    loyalty_discount := 0, final_total := 63/10 }

/-- The loyalty record produced for `sampleOrder`. -/
def sampleLoyalty : LoyaltyPoints :=
  { customer_id := "CUST456", points_earned := 6, total_points := 106,
    current_tier := "bronze" }

/-- The full summary produced for `sampleOrder`. -/
def sampleSummary : OrderSummary :=
  { order_id := "CO123", price_info := samplePrice, loyalty_info := sampleLoyalty,
    inventory_status := "READY_TO_PREPARE", status := "ACCEPTED", estimated_wait := 7 }

/-- All drink markups (including the default 0) are non-negative. -/
lemma drink_markups_nonneg (d : String) : 0 ≤ drink_markups d := by
  unfold drink_markups; split_ifs <;> norm_num

/-- All per-extra prices (including the default 0) are non-negative. -/
lemma extra_prices_nonneg (e : String) : 0 ≤ extra_prices e := by
  unfold extra_prices; split_ifs <;> norm_num

/-- The summed extras cost is non-negative. -/
lemma extras_sum_nonneg (l : List String) : 0 ≤ (l.map extra_prices).sum := by
  apply List.sum_nonneg
  intro x hx
  obtain ⟨e, _, rfl⟩ := List.mem_map.1 hx
  exact extra_prices_nonneg e

/-- All discount rates (including the default 0) are non-negative. -/
lemma discount_rates_nonneg (t : String) : 0 ≤ discount_rates t := by
  unfold discount_rates; split_ifs <;> norm_num

/-- All discount rates are at most 1. -/
lemma discount_rates_le_one (t : String) : discount_rates t ≤ 1 := by
  unfold discount_rates; split_ifs <;> norm_num

/-- Every value in the size table is non-negative. -/
lemma base_prices_nonneg (s : String) (b : ℚ) (h : base_prices s = some b) : 0 ≤ b := by
  unfold base_prices at h
  split_ifs at h <;> simp_all <;> linarith

/-- The size lookup succeeds exactly on the three recognized sizes. -/
lemma base_prices_isSome_iff (s : String) :
    (base_prices s).isSome ↔ (s = "small" ∨ s = "medium" ∨ s = "large") := by
  unfold base_prices; split_ifs <;> simp_all

/-- Unfolding of `calculate_order_price` on a recognized size. -/
lemma calculate_order_price_eq (o : CoffeeOrder) (tier : String) (b : ℚ)
    (hb : base_prices o.size = some b) :
    calculate_order_price o tier =
      .ok { order_id := o.order_id
            base_price := b + drink_markups o.drink_type
            extras_cost := (o.extras.map extra_prices).sum
            loyalty_discount :=
              (b + drink_markups o.drink_type + (o.extras.map extra_prices).sum)
                * discount_rates tier
            final_total :=
              b + drink_markups o.drink_type + (o.extras.map extra_prices).sum
                - (b + drink_markups o.drink_type + (o.extras.map extra_prices).sum)
                  * discount_rates tier } := by
  unfold calculate_order_price
  rw [hb]

/-- Evaluation of `process_pricing` on the sample order from `main()`. -/
lemma process_pricing_sample :
    process_pricing sampleOrder = .ok (samplePrice, sampleLoyalty) := by
  simp [process_pricing, calculate_order_price, calculate_loyalty_points, tierOfTotal,
    truncToInt, mock_current_points, base_prices, drink_markups, extra_prices,
    discount_rates, sampleOrder, samplePrice, sampleLoyalty, Except.bind, bind, pure,
    Except.pure]
  norm_num

/-- Evaluation of the whole pipeline on the sample order from `main()`. -/
lemma process_order_sample : process_order sampleOrder = .ok sampleSummary := by
  simp [process_order, process_pricing, process_inventory, check_inventory,
    calculate_order_price, calculate_loyalty_points, tierOfTotal, truncToInt,
    mock_current_points, base_prices, drink_markups, extra_prices, discount_rates,
    sampleOrder, samplePrice, sampleLoyalty, sampleSummary, Except.bind, bind, pure,
    Except.pure]
  norm_num

/-- C1: for every order with a recognized size and every tier string,
`calculate_order_price` succeeds and its final total is
base(size) + markup(drink) + sum of extra prices minus that same sum times
the tier discount rate, and this final total is non-negative. -/
theorem price_final_total_formula_and_nonneg (o : CoffeeOrder) (tier : String)
    (h : o.size = "small" ∨ o.size = "medium" ∨ o.size = "large") :
    ∃ (b : ℚ) (p : OrderPrice),
      base_prices o.size = some b ∧
      calculate_order_price o tier = .ok p ∧
      p.final_total =
        b + drink_markups o.drink_type + (o.extras.map extra_prices).sum
          - (b + drink_markups o.drink_type + (o.extras.map extra_prices).sum)
            * discount_rates tier ∧
      0 ≤ p.final_total := by
  obtain ⟨b, hb⟩ : ∃ b, base_prices o.size = some b := by
    rcases h with h | h | h <;> rw [h, base_prices] <;> simp
  refine ⟨b, _, hb, calculate_order_price_eq o tier b hb, rfl, ?_⟩
  have hS : 0 ≤ b + drink_markups o.drink_type + (o.extras.map extra_prices).sum := by
    have h1 := base_prices_nonneg o.size b hb
    have h2 := drink_markups_nonneg o.drink_type
    have h3 := extras_sum_nonneg o.extras
    linarith
  have hr1 : discount_rates tier ≤ 1 := discount_rates_le_one tier
  dsimp only
  nlinarith [mul_nonneg hS (sub_nonneg.2 hr1)]

/-- Witness for C1 at the sample order with tier gold. -/
theorem price_final_total_formula_and_nonneg_witness :
    (sampleOrder.size = "small" ∨ sampleOrder.size = "medium" ∨ sampleOrder.size = "large")
    ∧ ∃ (b : ℚ) (p : OrderPrice),
        base_prices sampleOrder.size = some b ∧
        calculate_order_price sampleOrder "gold" = .ok p ∧
        p.final_total =
          b + drink_markups sampleOrder.drink_type
            + (sampleOrder.extras.map extra_prices).sum
            - (b + drink_markups sampleOrder.drink_type
                + (sampleOrder.extras.map extra_prices).sum)
              * discount_rates "gold" ∧
        0 ≤ p.final_total :=
  ⟨by decide, price_final_total_formula_and_nonneg sampleOrder "gold" (by decide)⟩

/-- C2: on the sample order (medium latte with extra_shot and whipped_cream,
baseline 100 points) the pipeline returns base-plus-markup 5, extras cost 1.30,
discount 0, final total 6.30, post-order points 106 at tier bronze,
READY_TO_PREPARE, ACCEPTED, wait 7; the pre-order tier is bronze and the
inventory lines are coffee_beans(20), milk(200), coffee_beans(10) with no
restock flag. -/
theorem sample_order_end_to_end :
    process_order sampleOrder =
      .ok { order_id := "CO123"
            price_info := { order_id := "CO123", base_price := 5, extras_cost := 13/10,
                            loyalty_discount := 0, final_total := 63/10 }
            loyalty_info := { customer_id := "CUST456", points_earned := 6,
                              total_points := 106, current_tier := "bronze" }
            inventory_status := "READY_TO_PREPARE", status := "ACCEPTED",
            estimated_wait := 7 }
    ∧ (calculate_loyalty_points 0 sampleOrder.customer_id).current_tier = "bronze"
    ∧ check_inventory sampleOrder =
        { items_used := [("coffee_beans", 20), ("milk", 200), ("coffee_beans", 10)],
          restock_needed := [] } := by
  refine ⟨process_order_sample, ?_, ?_⟩
  · norm_num [calculate_loyalty_points, truncToInt, mock_current_points, tierOfTotal,
      sampleOrder]
  · simp [check_inventory, sampleOrder]

/-- C3: `calculate_order_price` fails exactly when the size is not one of
small, medium, large; unrecognized drink types, extras and loyalty tiers
never fail and contribute markup 0, extra price 0 and discount rate 0. -/
theorem invalid_size_only_error (o : CoffeeOrder) (tier : String) :
    ((∃ e, calculate_order_price o tier = .error e) ↔
      ¬(o.size = "small" ∨ o.size = "medium" ∨ o.size = "large"))
    ∧ (∀ d : String, ¬(d = "latte" ∨ d = "cappuccino" ∨ d = "espresso") →
        drink_markups d = 0)
    ∧ (∀ x : String, ¬(x = "extra_shot" ∨ x = "whipped_cream" ∨ x = "syrup") →
        extra_prices x = 0)
    ∧ (∀ t : String, ¬(t = "bronze" ∨ t = "silver" ∨ t = "gold") →
        discount_rates t = 0) := by
  refine ⟨?_, ?_, ?_, ?_⟩
  · constructor
    · rintro ⟨e, he⟩ hc
      obtain ⟨b, hb⟩ := Option.isSome_iff_exists.1 ((base_prices_isSome_iff o.size).2 hc)
      rw [calculate_order_price_eq o tier b hb] at he
      exact Except.noConfusion he
    · intro hsz
      rcases hb : base_prices o.size with _ | b
      · exact ⟨"KeyError: " ++ o.size, by unfold calculate_order_price; rw [hb]⟩
      · exact absurd ((base_prices_isSome_iff o.size).1 (by simp [hb])) hsz
  · intro d hd
    push_neg at hd
    unfold drink_markups
    simp [hd.1, hd.2.1, hd.2.2]
  · intro x hx
    push_neg at hx
    unfold extra_prices
    simp [hx.1, hx.2.1, hx.2.2]
  · intro t ht
    push_neg at ht
    unfold discount_rates
    simp [ht.1, ht.2.1, ht.2.2]

/-- Witness for C3 at a size venti order with unrecognized drink, extra and tier. -/
theorem invalid_size_only_error_witness :
    (∃ e, calculate_order_price badOrder "bronze" = .error e)
    ∧ drink_markups "mocha" = 0
    ∧ extra_prices "caramel" = 0
    ∧ discount_rates "platinum" = 0 :=
  ⟨(invalid_size_only_error badOrder "bronze").1.2 (by decide),
   (invalid_size_only_error badOrder "bronze").2.1 "mocha" (by decide),
   (invalid_size_only_error badOrder "bronze").2.2.1 "caramel" (by decide),
   (invalid_size_only_error badOrder "bronze").2.2.2 "platinum" (by decide)⟩

/-- C4: the tier of `calculate_loyalty_points` is determined by the cumulative
total (baseline 100 plus truncated spend); total 200 is bronze, 201 silver,
500 silver, 501 gold, and in general above 500 gold, above 200 up to 500
silver, up to 200 bronze. -/
theorem loyalty_tier_thresholds :
    (∀ (s : ℚ) (c : String),
      (calculate_loyalty_points s c).total_points = 100 + truncToInt s ∧
      (calculate_loyalty_points s c).current_tier =
        tierOfTotal (calculate_loyalty_points s c).total_points)
    ∧ tierOfTotal 200 = "bronze" ∧ tierOfTotal 201 = "silver"
    ∧ tierOfTotal 500 = "silver" ∧ tierOfTotal 501 = "gold"
    ∧ (∀ t : ℤ, 500 < t → tierOfTotal t = "gold")
    ∧ (∀ t : ℤ, 200 < t → t ≤ 500 → tierOfTotal t = "silver")
    ∧ (∀ t : ℤ, t ≤ 200 → tierOfTotal t = "bronze") := by
  refine ⟨fun s c => ⟨rfl, rfl⟩, by norm_num [tierOfTotal], by norm_num [tierOfTotal],
          by norm_num [tierOfTotal], by norm_num [tierOfTotal], ?_, ?_, ?_⟩
  · intro t ht; unfold tierOfTotal; split_ifs <;> first | rfl | omega
  · intro t ht1 ht2; unfold tierOfTotal; split_ifs <;> first | rfl | omega
  · intro t ht; unfold tierOfTotal; split_ifs <;> first | rfl | omega

/-- Witness for C4 at the totals 501, 300 and 150. -/
theorem loyalty_tier_thresholds_witness :
    (500 < (501:ℤ) ∧ tierOfTotal 501 = "gold")
    ∧ (200 < (300:ℤ) ∧ (300:ℤ) ≤ 500 ∧ tierOfTotal 300 = "silver")
    ∧ ((150:ℤ) ≤ 200 ∧ tierOfTotal 150 = "bronze") :=
  ⟨⟨by norm_num, loyalty_tier_thresholds.2.2.2.2.2.1 501 (by norm_num)⟩,
   ⟨by norm_num, by norm_num,
    loyalty_tier_thresholds.2.2.2.2.2.2.1 300 (by norm_num) (by norm_num)⟩,
   ⟨by norm_num, loyalty_tier_thresholds.2.2.2.2.2.2.2 150 (by norm_num)⟩⟩

/-- C5: for every customer and non-negative spend, the post-order tier is at
least the pre-order tier in the rank order bronze < silver < gold. -/
theorem post_tier_ge_pre_tier (c : String) (s : ℚ) (hs : 0 ≤ s) :
    tier_rank (calculate_loyalty_points 0 c).current_tier ≤
      tier_rank (calculate_loyalty_points s c).current_tier := by
  have h0 : (calculate_loyalty_points 0 c).current_tier = "bronze" := by
    norm_num [calculate_loyalty_points, truncToInt, mock_current_points, tierOfTotal]
  rw [h0]
  have h1 : tier_rank "bronze" = 0 := rfl
  rw [h1]
  exact Nat.zero_le _

/-- Witness for C5 at spend 3. -/
theorem post_tier_ge_pre_tier_witness :
    (0:ℚ) ≤ 3 ∧
      tier_rank (calculate_loyalty_points 0 "CUST456").current_tier ≤
        tier_rank (calculate_loyalty_points 3 "CUST456").current_tier :=
  ⟨by norm_num, post_tier_ge_pre_tier "CUST456" 3 (by norm_num)⟩

/-- C6: the inventory lines are always coffee_beans(20) then a milk line
(200 for latte or cappuccino, else 0, always recorded), with a third line
coffee_beans(10) exactly when extra_shot is among the extras; restock_needed
is nonempty exactly for espresso; a latte without extra_shot yields exactly
coffee_beans(20) and milk(200). -/
theorem inventory_lines_characterization (o : CoffeeOrder) :
    (check_inventory o).items_used =
      [("coffee_beans", 20),
       ("milk", if o.drink_type = "latte" ∨ o.drink_type = "cappuccino" then 200 else 0)]
        ++ (if "extra_shot" ∈ o.extras then [("coffee_beans", 10)] else [])
    ∧ (check_inventory o).restock_needed =
        (if o.drink_type = "espresso" then ["coffee_beans"] else [])
    ∧ (o.drink_type = "latte" → "extra_shot" ∉ o.extras →
        (check_inventory o).items_used = [("coffee_beans", 20), ("milk", 200)]) := by
  refine ⟨?_, ?_, ?_⟩
  · unfold check_inventory
    by_cases h1 : "extra_shot" ∈ o.extras <;>
      simp [h1, List.mem_cons]
  · unfold check_inventory
    by_cases h2 : o.drink_type = "espresso" <;> simp [h2]
  · intro hl hshot
    unfold check_inventory
    simp [hl, hshot]

/-- Witness for C6 at a small latte with only syrup. -/
theorem inventory_lines_characterization_witness :
    latteNoShot.drink_type = "latte" ∧ "extra_shot" ∉ latteNoShot.extras ∧
      (check_inventory latteNoShot).items_used = [("coffee_beans", 20), ("milk", 200)] :=
  ⟨rfl, by decide,
   (inventory_lines_characterization latteNoShot).2.2 rfl (by decide)⟩

/-- C7: whenever `process_order` returns a summary, its inventory status is
WARNING_LOW_STOCK exactly when restock is nonempty and READY_TO_PREPARE
otherwise, the estimated wait is 5 plus the number of extras, the status is
ACCEPTED, and the order id is the input order id. -/
theorem order_summary_fields (o : CoffeeOrder) (s : OrderSummary)
    (h : process_order o = .ok s) :
    s.inventory_status =
      (if (process_inventory o).restock_needed ≠ [] then "WARNING_LOW_STOCK"
       else "READY_TO_PREPARE")
    ∧ s.estimated_wait = 5 + o.extras.length
    ∧ s.status = "ACCEPTED"
    ∧ s.order_id = o.order_id := by
  unfold process_order at h
  rcases hp : process_pricing o with e | pl
  · rw [hp] at h
    simp [Except.bind, bind] at h
  · rw [hp] at h
    simp [Except.bind, bind, pure, Except.pure] at h
    subst h
    refine ⟨?_, by simp, rfl, rfl⟩
    by_cases hr : (process_inventory o).restock_needed = [] <;> simp [hr]

/-- Witness for C7 at the sample order. -/
theorem order_summary_fields_witness :
    process_order sampleOrder = .ok sampleSummary
    ∧ (sampleSummary.inventory_status =
        (if (process_inventory sampleOrder).restock_needed ≠ [] then "WARNING_LOW_STOCK"
         else "READY_TO_PREPARE")
      ∧ sampleSummary.estimated_wait = 5 + sampleOrder.extras.length
      ∧ sampleSummary.status = "ACCEPTED"
      ∧ sampleSummary.order_id = sampleOrder.order_id) :=
  ⟨process_order_sample,
   order_summary_fields sampleOrder sampleSummary process_order_sample⟩

/-- C8: if the pricing stage fails (the only fallible stage, e.g. on an
unknown size), `process_order` propagates that same failure and never
returns a summary. -/
theorem stage_failure_propagates (o : CoffeeOrder) (e : String)
    (h : calculate_order_price o (calculate_loyalty_points 0 o.customer_id).current_tier
          = .error e) :
    process_order o = .error e ∧ ∀ s : OrderSummary, process_order o ≠ .ok s := by
  have hpp : process_pricing o = .error e := by
    unfold process_pricing
    dsimp only
    rw [h]
    rfl
  have hpo : process_order o = .error e := by
    unfold process_order
    rw [hpp]
    rfl
  exact ⟨hpo, fun s hs => by rw [hpo] at hs; exact Except.noConfusion hs⟩

/-- Witness for C8 at the size venti order. -/
theorem stage_failure_propagates_witness :
    calculate_order_price badOrder
        (calculate_loyalty_points 0 badOrder.customer_id).current_tier
      = .error "KeyError: venti"
    ∧ process_order badOrder = .error "KeyError: venti" := by
  have h : calculate_order_price badOrder
      (calculate_loyalty_points 0 badOrder.customer_id).current_tier
      = .error "KeyError: venti" := rfl
  exact ⟨h, (stage_failure_propagates badOrder "KeyError: venti" h).1⟩

/-- C9 counterexample: on the medium latte sample order the base_price field
is 5 (size value 4 plus markup 1), not the bare size-table value 4. -/
theorem base_price_field_not_table_value :
    Except.map OrderPrice.base_price (calculate_order_price sampleOrder "bronze")
      = .ok 5
    ∧ ((5:ℚ) ≠ 4) := by
  constructor
  · simp [calculate_order_price, base_prices, drink_markups, extra_prices,
      discount_rates, sampleOrder, Except.map]
    norm_num
  · norm_num

/-- C9 amended: on a recognized size, the base_price field equals the
size-table value plus the drink markup (the markup is folded into the field,
not accounted separately). -/
theorem base_price_folds_markup (o : CoffeeOrder) (tier : String) (b : ℚ)
    (hb : base_prices o.size = some b) :
    ∃ p : OrderPrice, calculate_order_price o tier = .ok p ∧
      p.base_price = b + drink_markups o.drink_type := by
  exact ⟨_, calculate_order_price_eq o tier b hb, rfl⟩

/-- Witness for the amended C9 at the sample order. -/
theorem base_price_folds_markup_witness :
    base_prices sampleOrder.size = some 4
    ∧ ∃ p : OrderPrice, calculate_order_price sampleOrder "silver" = .ok p ∧
        p.base_price = 4 + drink_markups sampleOrder.drink_type :=
  ⟨rfl, base_price_folds_markup sampleOrder "silver" 4 rfl⟩

/-- C10: with the fixed baseline of 100 points, the spend 0 probe always
returns tier bronze, so every successfully priced order has loyalty
discount 0 and final total equal to base_price plus extras_cost. -/
theorem pre_tier_bronze_discount_zero :
    (∀ c : String, (calculate_loyalty_points 0 c).current_tier = "bronze")
    ∧ (∀ (o : CoffeeOrder) (p : OrderPrice) (l : LoyaltyPoints),
        process_pricing o = .ok (p, l) →
          p.loyalty_discount = 0 ∧ p.final_total = p.base_price + p.extras_cost) := by
  have hbr : ∀ c : String, (calculate_loyalty_points 0 c).current_tier = "bronze" := by
    intro c
    norm_num [calculate_loyalty_points, truncToInt, mock_current_points, tierOfTotal]
  refine ⟨hbr, ?_⟩
  intro o p l h
  unfold process_pricing at h
  dsimp only at h
  rw [hbr o.customer_id] at h
  rcases hb : base_prices o.size with _ | b
  · unfold calculate_order_price at h
    rw [hb] at h
    simp [Except.bind, bind] at h
  · rw [calculate_order_price_eq o "bronze" b hb] at h
    simp [Except.bind, bind, pure, Except.pure] at h
    obtain ⟨hp, hl⟩ := h
    have hrate : discount_rates "bronze" = 0 := rfl
    subst hp
    constructor
    · simp [hrate]
    · simp [hrate]

/-- Witness for C10 at the sample order. -/
theorem pre_tier_bronze_discount_zero_witness :
    process_pricing sampleOrder = .ok (samplePrice, sampleLoyalty)
    ∧ samplePrice.loyalty_discount = 0
    ∧ samplePrice.final_total = samplePrice.base_price + samplePrice.extras_cost :=
  ⟨process_pricing_sample,
   pre_tier_bronze_discount_zero.2 sampleOrder samplePrice sampleLoyalty
     process_pricing_sample⟩

end CoffeeShop
